import Mathlib

/-!
Shallow embedding of the transform-selection and compile-orchestration layer
of the sandpack-bundler repository, covering:

* `src/src/bundler/presets/react/ReactPreset.ts` — `ReactPreset.mapTransformers`,
  `ReactPreset.augmentDependencies`, `ReactPreset.init`;
* `src/src/bundler/presets/registry.ts` — `getPreset`;
* `src/src/index.ts` — `SandpackInstance.handleCompile`.

External collaborators that live outside the excerpt (the `Bundler` class,
`Preset` base class, `registerTransformer`, the message transport) are modelled
by universally quantified outcome parameters: the embedded orchestration code
reacts to an arbitrary success/failure outcome of each external call, exactly
as the TypeScript `await`/`then`/`catch` structure dictates.
-/

/-! ## String helpers mirroring JavaScript string and regex primitives

JavaScript strings are sequences of UTF-16 code units; for the paths this
code classifies (ASCII file paths) the character-level view used here agrees
with the code-unit view.  The helpers are written by structural recursion on
character lists so that concrete instances reduce by `decide`/`rfl`.
-/

def isPrefixL : List Char → List Char → Bool
  | [], _ => true
  | _ :: _, [] => false
  | a :: as, b :: bs => a == b && isPrefixL as bs

def isSuffixL (pat s : List Char) : Bool :=
  isPrefixL pat.reverse s.reverse

/-- JavaScript `String.prototype.startsWith` on whole strings. -/
def startsWithS (s pre : String) : Bool :=
  isPrefixL pre.data s.data

/-- JavaScript `String.prototype.endsWith` on whole strings. -/
def endsWithS (s post : String) : Bool :=
  isSuffixL post.data s.data

/-- Drop the last `n` characters of a string. -/
def dropRightS (s : String) (n : Nat) : String :=
  String.mk ((s.data.reverse.drop n).reverse)

/-- Line terminators not matched by an (non-dotAll) JavaScript regex `.`:
newline, carriage return, line separator, paragraph separator. -/
def isLineTerminator (c : Char) : Bool :=
  c == '\n' || c == '\r' || c == Char.ofNat 0x2028 || c == Char.ofNat 0x2029

/-- True when no character of `s` is a JavaScript line terminator, i.e. the
whole of `s` can be consumed by `.*` in a non-dotAll regex. -/
def noLineTerm (s : String) : Bool :=
  s.data.all (fun c => !isLineTerminator c)

/-! ## ReactPreset — `src/src/bundler/presets/react/ReactPreset.ts`

Transformer options objects (the second component of each tuple returned by
`mapTransformers`) are embedded as a small JSON-like value type. -/

inductive JVal : Type
  | str : String → JVal
  | bool : Bool → JVal
  | arr : List JVal → JVal
  | obj : List (String × JVal) → JVal

/-- A `[name, options]` tuple as returned by `mapTransformers`. -/
def TransformerBinding : Type := String × JVal

/-- Options of the babel binding in the JSX branch:
`{presets: [['react', {runtime:'automatic'}]], plugins: [['react-refresh/babel', {skipEnvCheck:true}]]}`. -/
def jsxBabelOptions : JVal :=
  .obj
    [("presets", .arr [.arr [.str "react", .obj [("runtime", .str "automatic")]]]),
     ("plugins", .arr [.arr [.str "react-refresh/babel", .obj [("skipEnvCheck", .bool true)]]])]

/-- Options of the babel binding in the plain-script branch:
`{presets: [['react', {runtime:'automatic'}]]}`. -/
def plainBabelOptions : JVal :=
  .obj [("presets", .arr [.arr [.str "react", .obj [("runtime", .str "automatic")]]])]

/-- The empty options object `{}`. -/
def emptyOptions : JVal := .obj []

/-- Chain returned by the first branch of `mapTransformers`. -/
def jsxChain : List TransformerBinding :=
  [("babel-transformer", jsxBabelOptions), ("react-refresh-transformer", emptyOptions)]

/-- Chain returned by the second branch of `mapTransformers`. -/
def plainBabelChain : List TransformerBinding :=
  [("babel-transformer", plainBabelOptions)]

/-- Chain returned by the third branch of `mapTransformers`. -/
def cssChain : List TransformerBinding :=
  [("css-transformer", emptyOptions), ("style-transformer", emptyOptions)]

/-- Extensions generated by `(((m|c)?jsx?)|tsx)`. -/
def jsxRuleExts : List String :=
  ["js", "jsx", "mjs", "mjsx", "cjs", "cjsx", "tsx"]

/-- Extensions generated by `(m|c)?(t|j)sx?`. -/
def scriptRuleExts : List String :=
  ["ts", "js", "tsx", "jsx", "mts", "mjs", "mtsx", "mjsx", "cts", "cjs", "ctsx", "cjsx"]

/-- `RegExp.test` of `/^(?!\/node_modules\/).*\.(((m|c)?jsx?)|tsx)$/` on a path.
`^` anchors the match at position 0, so the negative lookahead requires the
string not to start with `/node_modules/`; `.*` consumes any run of
non-line-terminator characters; `\.` and the extension group followed by `$`
require the string to end in a dot plus one of `jsxRuleExts`. -/
def jsxRuleTest (filepath : String) : Bool :=
  !startsWithS filepath "/node_modules/" &&
    jsxRuleExts.any (fun ext =>
      endsWithS filepath ("." ++ ext) &&
        noLineTerm (dropRightS filepath (ext.length + 1)))

/-- `RegExp.test` of `/\.(m|c)?(t|j)sx?$/` on a path: the match is unanchored
on the left, so the test holds exactly when the string ends in a dot plus one
of `scriptRuleExts`. -/
def scriptRuleTest (filepath : String) : Bool :=
  scriptRuleExts.any (fun ext => endsWithS filepath ("." ++ ext))

/-- `RegExp.test` of `/\.css$/` on a path. -/
def cssRuleTest (filepath : String) : Bool :=
  endsWithS filepath ".css"

namespace ReactPreset

/-- `ReactPreset.mapTransformers`, as the function from the module's
`filepath` to either the ordered transformer chain or the thrown error's
message.  A module is identified by its filepath; the source text plays no
role in dispatch. -/
def mapTransformers (filepath : String) : Except String (List TransformerBinding) :=
  if jsxRuleTest filepath then
    .ok jsxChain
  else if scriptRuleTest filepath && !endsWithS filepath ".d.ts" then
    .ok plainBabelChain
  else if cssRuleTest filepath then
    .ok cssChain
  else
    .error ("No transformer for " ++ filepath)

end ReactPreset

/-! ### Dependency maps

A `DepMap` is a JavaScript object mapping package names to version ranges.
JavaScript object semantics: property write replaces the value of an existing
key in place and appends a fresh key at the end; property read returns the
first (unique, in a real object) entry.  Embedded as an association list. -/

def DepMap : Type := List (String × String)

def lookupDep : DepMap → String → Option String
  | [], _ => none
  | (k', v') :: rest, k => if k' = k then some v' else lookupDep rest k

/-- JavaScript property assignment `obj[k] = v`. -/
def setKey : DepMap → String → String → DepMap
  | [], k, v => [(k, v)]
  | (k', v') :: rest, k, v =>
    if k' = k then (k', v) :: rest else (k', v') :: setKey rest k v

/-- Truth of `!dependencies[k]` in JavaScript: the read is falsy when the key
is absent (`undefined`) or its value is the empty string. -/
def depFalsy (r : Option String) : Bool :=
  match r with
  | none => true
  | some v => decide (v = "")

namespace ReactPreset

/-- `ReactPreset.augmentDependencies`:
sets `react-refresh` to `^0.11.0` when the existing read is falsy, then
unconditionally sets `core-js` to `3.22.7`. -/
def augmentDependencies (dependencies : DepMap) : DepMap :=
  let d1 :=
    if depFalsy (lookupDep dependencies "react-refresh") then
      setKey dependencies "react-refresh" "^0.11.0"
    else
      dependencies
  setKey d1 "core-js" "3.22.7"

end ReactPreset

/-! ### Errors and promise outcomes

A JavaScript exception / promise rejection value.  Only its identity matters
to the orchestration layer (it is forwarded to `errorMessage` and the message
bus); it is embedded as the carried message text. -/

structure JsError : Type where
  text : String
  deriving DecidableEq, Repr

/-- `Promise.all` restricted to unit-valued promises whose outcomes are
already known: it is fulfilled exactly when every component is fulfilled.
When several components reject, which rejection value `Promise.all` reports
depends on timing; this embedding picks the first in list order, which does
not affect any property below (they only use fulfilment vs rejection). -/
def promiseAllUnits : List (Except JsError Unit) → Except JsError Unit
  | [] => .ok ()
  | .error e :: _ => .error e
  | .ok _ :: rest => promiseAllUnits rest

/-- Outcomes of the five awaited sub-tasks of `ReactPreset.init`: the
`super.init(bundler)` call and the four concurrent `registerTransformer`
calls (babel, react-refresh, css, style), each an external call whose
success or failure is a parameter. -/
structure ReactInitEnv : Type where
  superInit : Except JsError Unit
  regBabel : Except JsError Unit
  regReactRefresh : Except JsError Unit
  regCSS : Except JsError Unit
  regStyle : Except JsError Unit
  deriving Repr

namespace ReactPreset

/-- `ReactPreset.init`: awaits `super.init(bundler)` and then
`Promise.all` of the four transformer registrations.  The returned value is
the outcome of the whole `init` promise. -/
def init (ie : ReactInitEnv) : Except JsError Unit :=
  match ie.superInit with
  | .error e => .error e
  | .ok _ =>
    promiseAllUnits [ie.regBabel, ie.regReactRefresh, ie.regCSS, ie.regStyle]

end ReactPreset

/-! ## Preset registry — `src/src/bundler/presets/registry.ts` -/

/-- The two preset classes instantiated in `PRESET_MAP`.  (The solid preset's
implementation is outside the excerpt; only its registration matters here.) -/
inductive PresetChoice : Type
  | react
  | solid
  deriving DecidableEq, Repr

/-- An entry produced via `logger.warn`. -/
inductive LogEntry : Type
  | warn : String → LogEntry
  deriving DecidableEq, Repr

/-- The module-level `PRESET_MAP`. -/
def PRESET_MAP : List (String × PresetChoice) :=
  [("react", .react), ("solid", .solid)]

/-- `getPreset`: looks `presetName` up in `PRESET_MAP`; on a miss it warns
and falls back to a React preset.  The function is total — no branch throws.
Returns the chosen preset together with the warnings logged by the call. -/
def getPreset (presetName : String) : PresetChoice × List LogEntry :=
  match List.lookup presetName PRESET_MAP with
  | some foundPreset => (foundPreset, [])
  | none =>
    (.react, [.warn ("Unknown preset " ++ presetName ++ ", falling back to React")])

/-! ## Compile orchestration — `SandpackInstance.handleCompile` in `src/src/index.ts` -/

/-- The values carried by outbound `status` messages. -/
inductive Status : Type
  | initializing
  | evaluating
  | idle
  deriving DecidableEq, Repr

/-- Outbound messages sent on the message bus during a compile cycle.
The `done` payload is embedded as the literal list of its fields so that the
field NAME used by the code is part of the model.  `action` carries the error
forwarded through `errorMessage`; `resize` payload (the measured height) is
irrelevant to the properties below and omitted. -/
inductive Msg : Type
  | start : Bool → Msg
  | status : Status → Msg
  | done : List (String × Bool) → Msg
  | action : JsError → Msg
  | success : Msg
  | resize : Msg
  deriving DecidableEq, Repr

/-- Observable events of one `handleCompile` run: outbound messages plus the
calls made into the bundler.  Call events record that the corresponding
external operation was started. -/
inductive Ev : Type
  | msg : Msg → Ev
  | callConfigureFS : Ev
  | callResetModules : Ev
  | callInitPreset : Ev
  | callCompile : Ev
  | callReplaceHTML : Ev
  | callEvaluate : Ev
  deriving DecidableEq, Repr

/-- Parameters of one compile cycle: the request-independent bundler state
(`isFirstLoad`, whether the measured height changed) and the outcomes of the
external bundler calls awaited by `handleCompile`.
`compileResult = .ok b` means `bundler.compile(files)` fulfilled with a value
whose truthiness is `b` (the produced evaluate thunk); `.error e` means it
rejected with `e`.  `evalThrows = some e` means the `evaluate()` call, if
reached, throws `e` synchronously. -/
structure CycleEnv : Type where
  firstLoad : Bool
  heightChanged : Bool
  presetInit : Except JsError Unit
  compileResult : Except JsError Bool
  evalThrows : Option JsError
  deriving Repr

/-- `SandpackInstance.handleCompile`, as the sequence of observable events of
one cycle plus the outcome of the returned promise.

Control flow, line by line from the source: configure the filesystem; send
`start {firstLoad}`; send `status initializing`; on first load reset modules;
load integrations (errors are caught and logged, no messages); `await
bundler.initPreset` — NOT guarded, so a rejection ends the run right here
and rejects `handleCompile`'s own promise; `bundler.compile(files)` with
`.then` sending `done {compilatonError: false}` (spelled as in the source)
and `.catch` sending `action errorMessage(e)` then `done {compilatonError:
true}` and yielding `undefined`; `replaceHTML()` unconditionally; if the
compile value is truthy, send `status evaluating`, call it, and either send
`resize` (when the height changed) and `success`, or catch the throw and
send `action errorMessage(e)`; finally send `status idle`. -/
def handleCompile (env : CycleEnv) : List Ev × Except JsError Unit :=
  let evs := [Ev.callConfigureFS, Ev.msg (.start env.firstLoad),
              Ev.msg (.status .initializing)]
  let evs := evs ++ (if env.firstLoad then [Ev.callResetModules] else [])
  let evs := evs ++ [Ev.callInitPreset]
  match env.presetInit with
  | .error e => (evs, .error e)
  | .ok _ =>
    let evs := evs ++ [Ev.callCompile]
    match env.compileResult with
    | .ok evalTruthy =>
      let evs := evs ++ [Ev.msg (.done [("compilatonError", false)]),
                         Ev.callReplaceHTML]
      if evalTruthy then
        let evs := evs ++ [Ev.msg (.status .evaluating), Ev.callEvaluate]
        match env.evalThrows with
        | none =>
          let evs := evs ++ (if env.heightChanged then [Ev.msg .resize] else [])
          (evs ++ [Ev.msg .success, Ev.msg (.status .idle)], .ok ())
        | some e =>
          (evs ++ [Ev.msg (.action e), Ev.msg (.status .idle)], .ok ())
      else
        (evs ++ [Ev.msg (.status .idle)], .ok ())
    | .error e =>
      let evs := evs ++ [Ev.msg (.action e),
                         Ev.msg (.done [("compilatonError", true)]),
                         Ev.callReplaceHTML]
      (evs ++ [Ev.msg (.status .idle)], .ok ())

/-- The outbound messages of an event trace. -/
def msgsOf (evs : List Ev) : List Msg :=
  evs.filterMap fun e =>
    match e with
    | .msg m => some m
    | _ => none

/-- The `status` payloads of an event trace, in emission order. -/
def statusesOf (evs : List Ev) : List Status :=
  (msgsOf evs).filterMap fun m =>
    match m with
    | .status s => some s
    | _ => none

/-- The `action` payloads of an event trace, in emission order. -/
def actionsOf (evs : List Ev) : List JsError :=
  (msgsOf evs).filterMap fun m =>
    match m with
    | .action e => some e
    | _ => none

/-- The `done` payloads of an event trace, in emission order. -/
def donesOf (evs : List Ev) : List (List (String × Bool)) :=
  (msgsOf evs).filterMap fun m =>
    match m with
    | .done p => some p
    | _ => none

/-! ### Concrete cycle environments used as counterexamples and witnesses -/

/-- A cycle whose preset initialization rejects. -/
def envInitFail : CycleEnv :=
  ⟨false, false, .error ⟨"preset init failed"⟩, .ok true, none⟩

/-- A fully successful cycle. -/
def envAllOk : CycleEnv :=
  ⟨false, false, .ok (), .ok true, none⟩

/-- A cycle whose compile phase rejects. -/
def envCompileFail : CycleEnv :=
  ⟨false, false, .ok (), .error ⟨"compile failed"⟩, none⟩

/-- A cycle whose evaluation throws. -/
def envEvalFail : CycleEnv :=
  ⟨true, false, .ok (), .ok true, some ⟨"eval failed"⟩⟩

/-- A react-preset init in which the react-refresh registration fails. -/
def initEnvOneFail : ReactInitEnv :=
  ⟨.ok (), .ok (), .error ⟨"register failed"⟩, .ok (), .ok ()⟩

/-- A cycle whose preset initialization is the failing react-preset init. -/
def envInitFailFromReact : CycleEnv :=
  ⟨false, false, ReactPreset.init initEnvOneFail, .ok true, none⟩

/-! ## Helper lemmas on dependency maps -/

/-- Reading a key just written returns the written value. -/
theorem lookup_setKey_self (d : DepMap) (k v : String) :
    lookupDep (setKey d k v) k = some v := by
  induction d with
  | nil => simp [setKey, lookupDep]
  | cons hd tl ih =>
    obtain ⟨a, b⟩ := hd
    by_cases h : a = k <;> simp [setKey, lookupDep, h, ih]

/-- Writing one key leaves reads of a different key unchanged. -/
theorem lookup_setKey_of_ne {d : DepMap} {k k' v : String} (h : k' ≠ k) :
    lookupDep (setKey d k' v) k = lookupDep d k := by
  induction d with
  | nil => simp [setKey, lookupDep, h]
  | cons hd tl ih =>
    obtain ⟨a, b⟩ := hd
    by_cases h2 : a = k'
    · subst h2
      simp [setKey, lookupDep, h]
    · by_cases h3 : a = k <;> simp [setKey, lookupDep, h2, h3, ih, Ne.symm h]

/-- Writing the same key twice keeps only the last write. -/
theorem setKey_setKey_self (d : DepMap) (k v v' : String) :
    setKey (setKey d k v') k v = setKey d k v := by
  induction d with
  | nil => simp [setKey]
  | cons hd tl ih =>
    obtain ⟨a, b⟩ := hd
    by_cases h : a = k <;> simp [setKey, h, ih]

/-- A property write never removes a key that was present. -/
theorem isSome_lookup_setKey {d : DepMap} {k : String} (k' v : String)
    (h : (lookupDep d k).isSome = true) :
    (lookupDep (setKey d k' v) k).isSome = true := by
  by_cases hk : k' = k
  · subst hk
    rw [lookup_setKey_self]
    rfl
  · rw [lookup_setKey_of_ne hk]
    exact h

/-- Unfolding equation for `augmentDependencies`. -/
theorem augmentDependencies_eq (d : DepMap) :
    ReactPreset.augmentDependencies d =
      setKey
        (if depFalsy (lookupDep d "react-refresh") then
          setKey d "react-refresh" "^0.11.0"
        else d)
        "core-js" "3.22.7" := rfl

/-- After one `augmentDependencies` run, the `react-refresh` entry reads as
a truthy (non-empty) version string. -/
theorem depFalsy_lookup_augment (d : DepMap) :
    depFalsy (lookupDep (ReactPreset.augmentDependencies d) "react-refresh") = false := by
  rw [augmentDependencies_eq,
    lookup_setKey_of_ne (by decide : ("core-js" : String) ≠ "react-refresh")]
  cases hf : depFalsy (lookupDep d "react-refresh") with
  | false => simp [hf]
  | true => simp [hf, lookup_setKey_self, depFalsy]

/-- `augmentDependencies` is idempotent. -/
theorem augmentDependencies_idem (d : DepMap) :
    ReactPreset.augmentDependencies (ReactPreset.augmentDependencies d) =
      ReactPreset.augmentDependencies d := by
  have hnf := depFalsy_lookup_augment d
  conv_lhs => rw [augmentDependencies_eq (ReactPreset.augmentDependencies d)]
  rw [hnf]
  simp only [Bool.false_eq_true, if_false]
  rw [augmentDependencies_eq d]
  exact setKey_setKey_self _ _ _ _

/-- `augmentDependencies` never drops a key supplied by the caller. -/
theorem augmentDependencies_preserves (d : DepMap) (k : String)
    (h : (lookupDep d k).isSome = true) :
    (lookupDep (ReactPreset.augmentDependencies d) k).isSome = true := by
  rw [augmentDependencies_eq]
  apply isSome_lookup_setKey
  cases hf : depFalsy (lookupDep d "react-refresh") with
  | false => simpa [hf] using h
  | true =>
    simp only [hf, if_true]
    exact isSome_lookup_setKey _ _ h

/-! ## Claim theorems -/

/-- C6 (confirmed): for every dependency map, `augmentDependencies` applied
twice yields the same map as applying it once, and the result retains every
key present in the input. -/
theorem augmentDependencies_idempotent_and_preserving :
    (∀ d : DepMap,
      ReactPreset.augmentDependencies (ReactPreset.augmentDependencies d) =
        ReactPreset.augmentDependencies d) ∧
    (∀ (d : DepMap) (k : String), (lookupDep d k).isSome = true →
      (lookupDep (ReactPreset.augmentDependencies d) k).isSome = true) :=
  ⟨augmentDependencies_idem, augmentDependencies_preserves⟩

/-- Witness for C6: a concrete map with one caller-supplied dependency. -/
theorem augmentDependencies_idempotent_and_preserving_witness :
    ReactPreset.augmentDependencies
        (ReactPreset.augmentDependencies [("left-pad", "1.0.0")]) =
      ReactPreset.augmentDependencies [("left-pad", "1.0.0")] ∧
    (lookupDep (ReactPreset.augmentDependencies [("left-pad", "1.0.0")])
        "left-pad").isSome = true :=
  ⟨augmentDependencies_idempotent_and_preserving.1 [("left-pad", "1.0.0")],
   augmentDependencies_idempotent_and_preserving.2 [("left-pad", "1.0.0")]
     "left-pad" (by decide)⟩

/-- C7 (confirmed): `getPreset` is total (the embedding is a Lean function,
so no branch can throw); it returns the registered preset for a registered
name, and for an unregistered name it returns a React preset and logs
exactly one warning naming the unknown preset. -/
theorem getPreset_total_with_fallback (presetName : String) :
    (∀ p, List.lookup presetName PRESET_MAP = some p →
      getPreset presetName = (p, [])) ∧
    (List.lookup presetName PRESET_MAP = none →
      getPreset presetName =
        (.react,
         [.warn ("Unknown preset " ++ presetName ++ ", falling back to React")])) := by
  constructor
  · intro p hp
    simp [getPreset, hp]
  · intro hp
    simp [getPreset, hp]

/-- Witness for C7: the registered name `solid` and the unknown name `vue`. -/
theorem getPreset_total_with_fallback_witness :
    getPreset "solid" = (.solid, []) ∧
    getPreset "vue" =
      (.react, [.warn ("Unknown preset " ++ "vue" ++ ", falling back to React")]) :=
  ⟨(getPreset_total_with_fallback "solid").1 .solid (by decide),
   (getPreset_total_with_fallback "vue").2 (by decide)⟩

/-- C4 (confirmed): when a module's filepath matches none of the react
preset's three dispatch rules, `mapTransformers` fails with the error message
`No transformer for <filepath>`, which names the filepath; and no input ever
yields an empty transformer chain. -/
theorem mapTransformers_no_silent_skip :
    (∀ fp : String,
      jsxRuleTest fp = false →
      (scriptRuleTest fp && !endsWithS fp ".d.ts") = false →
      cssRuleTest fp = false →
      ReactPreset.mapTransformers fp = .error ("No transformer for " ++ fp)) ∧
    (∀ (fp : String) (l : List TransformerBinding),
      ReactPreset.mapTransformers fp = .ok l → l ≠ []) := by
  constructor
  · intro fp h1 h2 h3
    simp [ReactPreset.mapTransformers, h1, h2, h3]
  · intro fp l hl
    unfold ReactPreset.mapTransformers at hl
    by_cases h1 : jsxRuleTest fp = true
    · simp [h1] at hl
      simp [← hl, jsxChain]
    · by_cases h2 : (scriptRuleTest fp && !endsWithS fp ".d.ts") = true
      · simp [h1, h2] at hl
        simp [← hl, plainBabelChain]
      · by_cases h3 : cssRuleTest fp = true
        · simp [h1, h2, h3] at hl
          simp [← hl, cssChain]
        · simp [h1, h2, h3] at hl

/-- Witness for C4: `/a.png` matches no rule and fails naming the path;
`/a.css` yields the (non-empty) css chain. -/
theorem mapTransformers_no_silent_skip_witness :
    ReactPreset.mapTransformers "/a.png" = .error ("No transformer for " ++ "/a.png") ∧
    cssChain ≠ [] :=
  ⟨mapTransformers_no_silent_skip.1 "/a.png" (by decide) (by decide) (by decide),
   mapTransformers_no_silent_skip.2 "/a.css" cssChain (by rfl)⟩

/-- C5 (confirmed): under the react preset, `/a.jsx` dispatches to exactly
the two-element chain babel-with-react-and-refresh-options followed by
react-refresh, and `/a.unknownext` fails with an error citing the path. -/
theorem mapTransformers_jsx_scenario :
    ReactPreset.mapTransformers "/a.jsx" =
      .ok [("babel-transformer",
            JVal.obj
              [("presets",
                .arr [.arr [.str "react", .obj [("runtime", .str "automatic")]]]),
               ("plugins",
                .arr [.arr [.str "react-refresh/babel",
                            .obj [("skipEnvCheck", .bool true)]]])]),
           ("react-refresh-transformer", JVal.obj [])] ∧
    ReactPreset.mapTransformers "/a.unknownext" =
      .error "No transformer for /a.unknownext" :=
  ⟨rfl, rfl⟩

/-- C10 (confirmed): a filepath under `/node_modules/` can never match the
JSX-with-refresh rule, so no chain returned for it contains the
react-refresh transformer; a script file under `/node_modules/` still
matches the plain babel rule and receives the one-element babel chain. -/
theorem mapTransformers_node_modules (fp : String)
    (hnm : startsWithS fp "/node_modules/" = true) :
    jsxRuleTest fp = false ∧
    (∀ l : List TransformerBinding, ReactPreset.mapTransformers fp = .ok l →
      "react-refresh-transformer" ∉ l.map (fun b => b.1)) ∧
    (scriptRuleTest fp = true → endsWithS fp ".d.ts" = false →
      ReactPreset.mapTransformers fp = .ok [("babel-transformer", plainBabelOptions)]) := by
  have hjsx : jsxRuleTest fp = false := by
    simp [jsxRuleTest, hnm]
  refine ⟨hjsx, ?_, ?_⟩
  · intro l hl
    unfold ReactPreset.mapTransformers at hl
    rw [hjsx] at hl
    simp only [Bool.false_eq_true, if_false] at hl
    by_cases h2 : (scriptRuleTest fp && !endsWithS fp ".d.ts") = true
    · simp [h2] at hl
      simp [← hl, plainBabelChain]
    · by_cases h3 : cssRuleTest fp = true
      · simp [h2, h3] at hl
        simp [← hl, cssChain]
      · simp [h2, h3] at hl
  · intro hs hd
    simp [ReactPreset.mapTransformers, hjsx, hs, hd, plainBabelChain]

/-- Witness for C10: `/node_modules/foo/index.js` gets the one-element babel
chain, which does not mention the react-refresh transformer. -/
theorem mapTransformers_node_modules_witness :
    ReactPreset.mapTransformers "/node_modules/foo/index.js" =
      .ok [("babel-transformer", plainBabelOptions)] ∧
    "react-refresh-transformer" ∉
      ([("babel-transformer", plainBabelOptions)] :
        List TransformerBinding).map (fun b => b.1) :=
  ⟨(mapTransformers_node_modules "/node_modules/foo/index.js" (by decide)).2.2
     (by decide) (by decide),
   (mapTransformers_node_modules "/node_modules/foo/index.js" (by decide)).2.1
     [("babel-transformer", plainBabelOptions)]
     ((mapTransformers_node_modules "/node_modules/foo/index.js" (by decide)).2.2
       (by decide) (by decide))⟩

/-- C1 (corrected): the status sequence of a compile cycle.  In every cycle
whose preset initialization fulfils, the emitted statuses are
`[initializing, idle]` or `[initializing, evaluating, idle]` — a subsequence
of `initializing, evaluating, idle` ending in `idle`, with `idle` emitted
exactly once — covering compile failure and evaluation failure.  But when
`bundler.initPreset` rejects, the unguarded `await` aborts `handleCompile`
after `status initializing`: the cycle emits no `idle` at all, contrary to
the claim's "on every path including those where preset initialization
fails". -/
theorem handleCompile_status_sequence (env : CycleEnv) :
    (env.presetInit.isOk = true →
      (statusesOf (handleCompile env).1 = [.initializing, .idle] ∨
        statusesOf (handleCompile env).1 = [.initializing, .evaluating, .idle]) ∧
      (statusesOf (handleCompile env).1).count .idle = 1) ∧
    (env.presetInit.isOk = false →
      statusesOf (handleCompile env).1 = [.initializing] ∧
      (statusesOf (handleCompile env).1).count .idle = 0) := by
  obtain ⟨fl, hc, pi, cr, et⟩ := env
  cases pi with
  | error e =>
    refine ⟨fun hpi => Bool.noConfusion hpi, fun _ => ?_⟩
    cases fl <;> exact ⟨rfl, rfl⟩
  | ok u =>
    refine ⟨fun _ => ?_, fun hpi => Bool.noConfusion hpi⟩
    cases cr with
    | error e => cases fl <;> exact ⟨Or.inl rfl, rfl⟩
    | ok b =>
      cases b with
      | false => cases fl <;> exact ⟨Or.inl rfl, rfl⟩
      | true =>
        cases et with
        | none => cases fl <;> cases hc <;> exact ⟨Or.inr rfl, rfl⟩
        | some e2 => cases fl <;> exact ⟨Or.inr rfl, rfl⟩

/-- Counterexample for C1 as stated: in a cycle whose preset initialization
rejects, the only status emitted is `initializing` — `idle` is emitted zero
times, not exactly once. -/
theorem handleCompile_status_idle_missing_on_initFail :
    statusesOf (handleCompile envInitFail).1 = [Status.initializing] ∧
    (statusesOf (handleCompile envInitFail).1).count Status.idle = 0 :=
  ⟨rfl, rfl⟩

/-- Witness for C1 (amended): the fully successful cycle. -/
theorem handleCompile_status_sequence_witness :
    (statusesOf (handleCompile envAllOk).1 = [.initializing, .idle] ∨
      statusesOf (handleCompile envAllOk).1 = [.initializing, .evaluating, .idle]) ∧
    (statusesOf (handleCompile envAllOk).1).count .idle = 1 :=
  (handleCompile_status_sequence envAllOk).1 rfl

/-- C2 (corrected): compile failure and evaluation failure each produce
exactly one `action` message and the cycle still reaches `idle`.  But the
third fatal condition, preset-init failure, produces NO `action` message and
the cycle never reaches `idle` (the rejection escapes `handleCompile` and is
only logged by the caller), contrary to the claim. -/
theorem handleCompile_fatal_one_action (env : CycleEnv) :
    (env.presetInit.isOk = true →
      (env.compileResult.isOk = false ∨
        (env.compileResult = .ok true ∧ env.evalThrows.isSome = true)) →
      (actionsOf (handleCompile env).1).length = 1 ∧
      Status.idle ∈ statusesOf (handleCompile env).1) ∧
    (env.presetInit.isOk = false →
      (actionsOf (handleCompile env).1).length = 0 ∧
      Status.idle ∉ statusesOf (handleCompile env).1) := by
  obtain ⟨fl, hc, pi, cr, et⟩ := env
  cases pi with
  | error e =>
    refine ⟨fun hpi => Bool.noConfusion hpi, fun _ => ?_⟩
    cases fl <;> exact ⟨rfl, by simp [handleCompile, statusesOf, msgsOf]⟩
  | ok u =>
    refine ⟨fun _ hfatal => ?_, fun hpi => Bool.noConfusion hpi⟩
    cases cr with
    | error e =>
      cases fl <;> exact ⟨rfl, by simp [handleCompile, statusesOf, msgsOf]⟩
    | ok b =>
      rcases hfatal with hbad | ⟨hb, hsome⟩
      · exact Bool.noConfusion hbad
      · have hb' : b = true := Except.ok.inj hb
        subst hb'
        cases et with
        | none => exact Bool.noConfusion hsome
        | some e2 =>
          cases fl <;> exact ⟨rfl, by simp [handleCompile, statusesOf, msgsOf]⟩

/-- Counterexample for C2 as stated: a preset-init failure is fatal to the
cycle, yet the cycle sends zero `action` messages and never reaches
`idle`. -/
theorem handleCompile_initFail_no_action :
    (actionsOf (handleCompile envInitFail).1).length = 0 ∧
    Status.idle ∉ statusesOf (handleCompile envInitFail).1 := by
  exact ⟨rfl, by decide⟩

/-- Witness for C2 (amended): the compile-failure cycle. -/
theorem handleCompile_fatal_one_action_witness :
    (actionsOf (handleCompile envCompileFail).1).length = 1 ∧
    Status.idle ∈ statusesOf (handleCompile envCompileFail).1 :=
  (handleCompile_fatal_one_action envCompileFail).1 rfl (Or.inl rfl)

/-- C3 (corrected): after the compile phase, exactly one `done` message is
emitted, whose payload field is spelled `compilatonError` in the source (the
claim's `compilationError` does not occur); it is `false` on compile success
and `true` on failure; on failure the `action` message carrying the error
precedes the `done` message, `replaceHTML` is still called, and evaluation
is skipped. -/
theorem handleCompile_done_message (env : CycleEnv)
    (hpi : env.presetInit.isOk = true) :
    (∀ b, env.compileResult = .ok b →
      donesOf (handleCompile env).1 = [[("compilatonError", false)]]) ∧
    (∀ e, env.compileResult = .error e →
      msgsOf (handleCompile env).1 =
        [.start env.firstLoad, .status .initializing, .action e,
         .done [("compilatonError", true)], .status .idle] ∧
      Ev.callReplaceHTML ∈ (handleCompile env).1 ∧
      Ev.callEvaluate ∉ (handleCompile env).1) := by
  obtain ⟨fl, hc, pi, cr, et⟩ := env
  cases pi with
  | error e0 => exact Bool.noConfusion hpi
  | ok u =>
    constructor
    · intro b hb
      subst hb
      cases b <;> cases fl <;> cases hc <;> cases et <;> rfl
    · intro e hb
      subst hb
      cases fl <;> exact ⟨rfl, by simp [handleCompile], by simp [handleCompile]⟩

/-- Counterexample for C3 as stated: the unique `done` payload of a
successful cycle has the (misspelled) field `compilatonError` and no field
named `compilationError`. -/
theorem handleCompile_done_field_not_compilationError :
    donesOf (handleCompile envAllOk).1 = [[("compilatonError", false)]] ∧
    List.lookup "compilationError" [("compilatonError", false)] = none :=
  ⟨rfl, rfl⟩

/-- Witness for C3 (amended): the compile-failure cycle. -/
theorem handleCompile_done_message_witness :
    msgsOf (handleCompile envCompileFail).1 =
      [.start false, .status .initializing, .action ⟨"compile failed"⟩,
       .done [("compilatonError", true)], .status .idle] ∧
    Ev.callReplaceHTML ∈ (handleCompile envCompileFail).1 ∧
    Ev.callEvaluate ∉ (handleCompile envCompileFail).1 :=
  (handleCompile_done_message envCompileFail rfl).2 ⟨"compile failed"⟩ rfl

/-- C8 (confirmed): if any of the four concurrently started transformer
registrations of `ReactPreset.init` fails, `init` as a whole rejects
(`Promise.all` rejects, so the preset is never ready with a partial
registration set), and any cycle whose preset initialization is that failed
`init` never calls `bundler.compile`. -/
theorem reactInit_failure_propagates (ie : ReactInitEnv)
    (hfail : ie.regBabel.isOk = false ∨ ie.regReactRefresh.isOk = false ∨
      ie.regCSS.isOk = false ∨ ie.regStyle.isOk = false) :
    (ReactPreset.init ie).isOk = false ∧
    (∀ env : CycleEnv, env.presetInit = ReactPreset.init ie →
      Ev.callCompile ∉ (handleCompile env).1) := by
  have hinit : (ReactPreset.init ie).isOk = false := by
    obtain ⟨si, rb, rr, rc, rs⟩ := ie
    cases si <;> cases rb <;> cases rr <;> cases rc <;> cases rs <;>
      simp_all [ReactPreset.init, promiseAllUnits, Except.toBool]
  refine ⟨hinit, fun env henv => ?_⟩
  obtain ⟨fl, hc, pi, cr, et⟩ := env
  cases pi with
  | error e => cases fl <;> simp [handleCompile]
  | ok u =>
    rw [← henv] at hinit
    exact Bool.noConfusion hinit

/-- Witness for C8: the react-refresh registration fails; `init` rejects and
the cycle built on it never starts a compile. -/
theorem reactInit_failure_propagates_witness :
    (ReactPreset.init initEnvOneFail).isOk = false ∧
    Ev.callCompile ∉ (handleCompile envInitFailFromReact).1 :=
  ⟨(reactInit_failure_propagates initEnvOneFail (Or.inr (Or.inl rfl))).1,
   (reactInit_failure_propagates initEnvOneFail (Or.inr (Or.inl rfl))).2
     envInitFailFromReact rfl⟩

/-- C9 (confirmed): in a cycle whose compile fulfils with a truthy evaluate
thunk and whose evaluation throws, the messages are exactly `start`,
`status initializing`, `done {compilatonError: false}`, `status evaluating`,
the single `action` error message, `status idle` — so the `done` with a
false error flag precedes the `action`, which precedes `idle`, and `success`
is never sent. -/
theorem handleCompile_eval_throw_sequence (env : CycleEnv) (e : JsError)
    (hpi : env.presetInit.isOk = true)
    (hcr : env.compileResult = .ok true)
    (het : env.evalThrows = some e) :
    msgsOf (handleCompile env).1 =
      [.start env.firstLoad, .status .initializing,
       .done [("compilatonError", false)], .status .evaluating,
       .action e, .status .idle] ∧
    Msg.success ∉ msgsOf (handleCompile env).1 ∧
    (actionsOf (handleCompile env).1).length = 1 := by
  obtain ⟨fl, hc, pi, cr, et⟩ := env
  cases pi with
  | error e0 => exact Bool.noConfusion hpi
  | ok u =>
    subst hcr
    subst het
    cases fl <;> exact ⟨rfl, by simp [handleCompile, msgsOf], rfl⟩

/-- Witness for C9: the concrete evaluation-failure cycle. -/
theorem handleCompile_eval_throw_sequence_witness :
    msgsOf (handleCompile envEvalFail).1 =
      [.start true, .status .initializing, .done [("compilatonError", false)],
       .status .evaluating, .action ⟨"eval failed"⟩, .status .idle] ∧
    Msg.success ∉ msgsOf (handleCompile envEvalFail).1 ∧
    (actionsOf (handleCompile envEvalFail).1).length = 1 :=
  handleCompile_eval_throw_sequence envEvalFail ⟨"eval failed"⟩ rfl rfl rfl
